/-
Verification of the Polymarket maker-bot quoting engine against its design
specification.  The Python source (maker_strategy.py, binance_feed.py,
config.py) is shallowly embedded: prices and timestamps are rationals,
fallible Python code returns `Except`, and the mutable fields of the
strategy / feed objects are explicit state records.
-/
import Mathlib

namespace MakerBot

/-- Errors a Python call can raise in the fragments we model. -/
inductive PyError where
  | valueError
  deriving DecidableEq, Repr

/-! ## Fair Value Model

`calculate_fair_price` (maker_strategy.py lines 125-173): piecewise table on
`diff = btc_price - strike_price`, followed by a defensive clamp to
[0.01, 0.99].  Decimal literals of the source are written as exact
rationals. -/

/-- Embeds `MakerStrategy.calculate_fair_price` (maker_strategy.py 125-173):
the piecewise probability table on `diff = btc_price - strike_price`
followed by the clamp `max(0.01, min(0.99, fair_price))`. -/
def calculate_fair_price (btc_price strike_price : ℚ) : ℚ :=
  let diff := btc_price - strike_price
  let fair_price :=
    if diff > 0 then
      if diff ≥ 500 then 90/100
      else if diff ≥ 300 then 75/100
      else if diff ≥ 100 then 60/100
      else 50/100 + (diff / 100) * (10/100)
    else
      let abs_diff := |diff|
      if abs_diff ≥ 500 then 10/100
      else if abs_diff ≥ 300 then 25/100
      else if abs_diff ≥ 100 then 40/100
      else 50/100 - (abs_diff / 100) * (10/100)
  max (1/100) (min (99/100) fair_price)

/-! ## Quote Gate

The edge gate is inline in `quote_orders` (maker_strategy.py 206-218):
`min_edge = MIN_EDGE_BPS / 10000.0`, `distance_from_50 = abs(fair_price - 0.50)`,
and the quote is vetoed when `distance_from_50 < min_edge / 2`. -/

/-- The quote gate extracted from `quote_orders` (maker_strategy.py 206-218):
quoting is permitted unless `|fair_price - 0.50| < (min_edge_bps/10000)/2`. -/
def allow (fair_price min_edge_bps : ℚ) : Bool :=
  let min_edge := min_edge_bps / 10000
  let distance_from_50 := |fair_price - 50/100|
  ¬ (distance_from_50 < min_edge / 2)

example : allow (50/100) 200 = false := by norm_num [allow, abs, max_def]
example : allow (60/100) 200 = true := by norm_num [allow, abs, max_def]
example : allow (489/1000) 200 = true := by norm_num [allow, abs, max_def]
example : allow (491/1000) 200 = false := by norm_num [allow, abs, max_def]
example : allow (49/100) 200 = true := by norm_num [allow, abs, max_def]

example : calculate_fair_price 83000 83000 = 50/100 := by norm_num [calculate_fair_price]
example : calculate_fair_price 83500 83000 = 90/100 := by norm_num [calculate_fair_price]
example : calculate_fair_price 82500 83000 = 10/100 := by norm_num [calculate_fair_price]
example : calculate_fair_price 83050 83000 = 55/100 := by norm_num [calculate_fair_price]

/-! ## Price Stream (BinanceFeed)

binance_feed.py: the feed object holds `price` (initially `None`),
`last_update` (initially `0`), `running`.  `get_price` (135-142) returns the
stored price unconditionally; `is_connected` (144-153) checks `running`,
then `if self.last_update and (time.time() - self.last_update) < 10`
(a Python truthiness test on `last_update`, i.e. `last_update ≠ 0`). -/

/-- Mutable fields of `BinanceFeed` relevant to `get_price`/`is_connected`. -/
structure FeedState where
  price : Option ℚ
  last_update : ℚ
  running : Bool
  deriving DecidableEq, Repr

/-- Embeds `BinanceFeed.get_price` (binance_feed.py 135-142):
`return self.price`, with no staleness check. -/
def get_price (s : FeedState) : Option ℚ := s.price

/-- Embeds `BinanceFeed.is_connected` (binance_feed.py 144-153), where `now`
stands for `time.time()`. -/
def is_connected (now : ℚ) (s : FeedState) : Bool :=
  if ¬ s.running then false
  else if s.last_update ≠ 0 ∧ now - s.last_update < 10 then true
  else false

/-! ## Requote trigger policy -/

/-- Mutable fields of `MakerStrategy` relevant to the requote loop. -/
structure StratState where
  current_orders : List String
  last_btc_price : Option ℚ
  last_cancel_replace : ℚ
  deriving DecidableEq, Repr

/-- Embeds `MakerStrategy.should_requote` (maker_strategy.py 95-122) with
`now` for `time.time()` and the two `Config` values passed explicitly
(`Config.CANCEL_REPLACE_INTERVAL`, `Config.QUOTE_REFRESH_ON_PRICE_CHANGE`). -/
def should_requote (cancel_replace_interval quote_refresh_on_price_change : ℚ)
    (now : ℚ) (s : StratState) (current_btc_price : ℚ) : Bool :=
  match s.last_btc_price with
  | none => true
  | some last =>
    let elapsed := now - s.last_cancel_replace
    if elapsed ≥ cancel_replace_interval then true
    else
      let price_change_pct := |current_btc_price - last| / last
      if price_change_pct ≥ quote_refresh_on_price_change then true
      else false

/-! ## Strike extraction

`extract_strike_price` (maker_strategy.py 274-295) runs
`re.search(r'\$([0-9,]+)', question)`, strips commas from the group and
calls `float(...)`; `float('')` raises `ValueError`. -/

/-- Character class `[0-9,]` of the strike regex. -/
def isStrikeChar (c : Char) : Bool := c.isDigit || c = ','

/-- Leftmost match of `\$([0-9,]+)` in a character list: the capture group of
the first `$` that is immediately followed by at least one `[0-9,]`
character, taken maximally (greedy `+`). -/
def strikeMatchGroup : List Char → Option (List Char)
  | [] => none
  | c :: rest =>
    if c = '$' then
      let g := rest.takeWhile isStrikeChar
      if g = [] then strikeMatchGroup rest else some g
    else strikeMatchGroup rest

/-- Value of a list of decimal digit characters. -/
def digitsToNat (ds : List Char) : Nat :=
  ds.foldl (fun n c => 10 * n + (c.toNat - 48)) 0

/-- Python `float(s)` on a string of decimal digits: `float('')` raises
`ValueError`, otherwise the parsed number. -/
def pyFloat (ds : List Char) : Except PyError ℚ :=
  if ds = [] then .error .valueError else .ok (digitsToNat ds : ℚ)

/-- Embeds `MakerStrategy.extract_strike_price` (maker_strategy.py 274-295):
regex search, `.replace(",", "")`, `float(...)`; `None` when the regex does
not match. -/
def extract_strike_price (question : String) : Except PyError (Option ℚ) :=
  match strikeMatchGroup question.data with
  | none => Except.ok none
  | some g => (pyFloat (g.filter (fun c => ¬ (c = ',')))).map (fun x => some x)

example : extract_strike_price "Will BTC be above $83,000 at 3:15 PM?" =
    Except.ok (some 83000) := by rfl
example : extract_strike_price "no strike here" = Except.ok none := by rfl
example : extract_strike_price "above $, today" = Except.error PyError.valueError := by
  rfl
example : extract_strike_price "$,5 then $77" = Except.ok (some 5) := by rfl

/-! ## Order lifecycle: `quote_orders`

maker_strategy.py 175-272.  The calls to the exchange client are modelled as
an effect trace (`cancel_order` / `create_maker_order`); the order ids the
exchange would return for the two `create_maker_order` calls are passed in
as `buyId` / `sellId` (`None` = failed submission).  `if not btc_price` and
`if not strike_price` are Python truthiness tests, false for `None` and for
`0.0`. -/

/-- One exchange-client call issued by `quote_orders`: `cancel_order(id)` or
`create_maker_order(side, price, size)` returning `ret`. -/
inductive Effect where
  | cancelOrder (id : String)
  | createOrder (side : String) (price size : ℚ) (ret : Option String)
  deriving DecidableEq, Repr

/-- Embeds `MakerStrategy.quote_orders` (maker_strategy.py 175-272).
Inputs: the `Config` values, `now` for `time.time()`, the feed's
`get_price()` result, the market `question`, the ids the exchange returns
for the buy and sell submissions, and the strategy state.  Output: the new
state and the trace of exchange calls; `Except` propagates a `ValueError`
escaping `extract_strike_price`. -/
def quote_orders (min_edge_bps spread_bps position_size : ℚ) (now : ℚ)
    (btc_price : Option ℚ) (question : String) (buyId sellId : Option String)
    (s : StratState) : Except PyError (StratState × List Effect) :=
  match btc_price with
  | none => Except.ok (s, [])
  | some p =>
    if p = 0 then Except.ok (s, [])
    else match extract_strike_price question with
    | Except.error e => Except.error e
    | Except.ok none => Except.ok (s, [])
    | Except.ok (some strike_price) =>
      if strike_price = 0 then Except.ok (s, [])
      else
        let fair_price := calculate_fair_price p strike_price
        if allow fair_price min_edge_bps = false then
          Except.ok ({ s with current_orders := [] },
            s.current_orders.map Effect.cancelOrder)
        else
          let spread := spread_bps / 10000
          let buy_price := max (1/100) (min (99/100) (fair_price - spread / 2))
          let sell_price := max (1/100) (min (99/100) (fair_price + spread / 2))
          let effects := s.current_orders.map Effect.cancelOrder
            ++ [Effect.createOrder "BUY" buy_price position_size buyId,
                Effect.createOrder "SELL" sell_price position_size sellId]
          let new_orders :=
            (match buyId with | some b => [b] | none => [])
            ++ (match sellId with | some sl => [sl] | none => [])
          Except.ok ({ current_orders := new_orders,
                       last_btc_price := some p,
                       last_cancel_replace := now }, effects)

/-! ## Market Selector: `find_active_market`

maker_strategy.py 75-93.  The market dicts are records; `get("question", "")`
and `get("tokens", [])` defaults are the record fields; `tokens[0].get("token_id")`
is an `Option String`.  The method never parses the strike and never raises:
with an empty list it logs and leaves the state unchanged, otherwise it
selects `markets[0]`. -/

/-- A market as consumed by `find_active_market`: the `question` text and the
`token_id` of each entry of the `tokens` list. -/
structure Market where
  question : String
  tokens : List (Option String)
  deriving DecidableEq, Repr

/-- The fields of `MakerStrategy` written by `find_active_market`. -/
structure SelState where
  active_market : Option Market
  active_token_id : Option String
  deriving DecidableEq, Repr

/-- Embeds `MakerStrategy.find_active_market` (maker_strategy.py 75-93),
with the result of `client.get_crypto_markets(...)` passed in. -/
def find_active_market (markets : List Market) (s : SelState) : SelState :=
  match markets with
  | [] => s
  | m :: _ =>
    let tid := match m.tokens with
      | [] => s.active_token_id
      | t :: _ => t
    { active_market := some m, active_token_id := tid }

/-! ## Python module-level syntax of maker_strategy.py

maker_strategy.py lines 124 and 125 are two identical `def
calculate_fair_price(...)` headers at the same indentation, so the first
header has no indented body and CPython rejects the module with
`IndentationError: expected an indented block after function definition on
line 124 (line 125)`.  We model the indentation rule for `def` blocks over
the skeleton of the class body: each `def` header line together with the
logical line that follows it. -/

/-- Kind of a logical source line: a `def` header or any other statement. -/
inductive PyLineKind where
  | defHeader
  | stmt
  deriving DecidableEq, Repr

/-- A logical source line: physical line number, indentation width, kind. -/
structure PyLine where
  lineno : Nat
  indent : Nat
  kind : PyLineKind
  deriving DecidableEq, Repr

/-- Python's indentation rule for `def` blocks: a `def` header must be
followed by a logical line indented strictly deeper.  Returns the line
number at which the first violation is reported (the line after the
offending header, as CPython does), or `none` if the rule holds. -/
def firstIndentError : List PyLine → Option Nat
  | [] => none
  | [l] => if l.kind = PyLineKind.defHeader then some (l.lineno + 1) else none
  | a :: b :: rest =>
    if a.kind = PyLineKind.defHeader ∧ ¬ (a.indent < b.indent) then some b.lineno
    else firstIndentError (b :: rest)

/-- The `def` header lines of class `MakerStrategy` in maker_strategy.py,
each with the logical line that follows it (for methods, the first line of
the docstring): line numbers and indentation taken from the source.  Lines
124 and 125 are the two consecutive `calculate_fair_price` headers, both at
indentation 4. -/
def makerStrategyLines : List PyLine :=
  [⟨20, 4, PyLineKind.defHeader⟩, ⟨21, 8, PyLineKind.stmt⟩,
   ⟨45, 4, PyLineKind.defHeader⟩, ⟨46, 8, PyLineKind.stmt⟩,
   ⟨63, 4, PyLineKind.defHeader⟩, ⟨64, 8, PyLineKind.stmt⟩,
   ⟨75, 4, PyLineKind.defHeader⟩, ⟨76, 8, PyLineKind.stmt⟩,
   ⟨95, 4, PyLineKind.defHeader⟩, ⟨96, 8, PyLineKind.stmt⟩,
   ⟨124, 4, PyLineKind.defHeader⟩, ⟨125, 4, PyLineKind.defHeader⟩,
   ⟨126, 8, PyLineKind.stmt⟩,
   ⟨175, 4, PyLineKind.defHeader⟩, ⟨176, 8, PyLineKind.stmt⟩,
   ⟨274, 4, PyLineKind.defHeader⟩, ⟨275, 8, PyLineKind.stmt⟩,
   ⟨297, 4, PyLineKind.defHeader⟩, ⟨298, 8, PyLineKind.stmt⟩]

/-- Error raised when importing a syntactically invalid module. -/
inductive PyImportError where
  | indentationError (lineno : Nat)
  deriving DecidableEq, Repr

/-- Importing maker_strategy.py: CPython compiles the whole module first, so
any indentation error makes the import raise and leaves nothing defined. -/
def importMakerStrategy : Except PyImportError Unit :=
  match firstIndentError makerStrategyLines with
  | some n => Except.error (PyImportError.indentationError n)
  | none => Except.ok ()

/-- The public operations of `MakerStrategy` named by the spec. -/
inductive MakerOp where
  | start
  | run
  | shouldRequote
  | quoteOrders
  | calculateFairPrice
  deriving DecidableEq, Repr

/-- An operation of `MakerStrategy` is callable only if the module imported:
a failed import defines no class at all. -/
def makerOpCallable (_op : MakerOp) : Bool :=
  match importMakerStrategy with
  | Except.ok _ => true
  | Except.error _ => false

example : firstIndentError makerStrategyLines = some 125 := by decide
example : makerOpCallable MakerOp.run = false := by decide

/-! ## Claims -/

/-- C1: maker_strategy.py has two consecutive `def calculate_fair_price`
headers at the same indentation (lines 124-125), the first with no indented
body, so the module violates Python's indentation rule at line 125,
importing it raises `IndentationError`, and no operation of `MakerStrategy`
is callable at all. -/
theorem C1_duplicate_def_header_breaks_module :
    firstIndentError makerStrategyLines = some 125 ∧
    importMakerStrategy = Except.error (PyImportError.indentationError 125) ∧
    ∀ op : MakerOp, makerOpCallable op = false := by
  exact ⟨by decide, rfl, fun _ => rfl⟩

/-- C2 counterexample: with a sample stored at time 100 and the clock at 200
(well past the 10 s staleness window), `get_price` still returns the stored
sample rather than absent, refuting the claim that the current-price
accessor reports absent on staleness. -/
theorem C2_counterexample_stale_price_still_returned :
    ¬ (∀ (now : ℚ) (s : FeedState),
        (s.price = none ∨ now - s.last_update > 10) → get_price s = none) := by
  intro h
  have h2 := h 200 ⟨some 50000, 100, true⟩ (Or.inr (by norm_num))
  simp [get_price] at h2

/-- C2 (amended): the 10-second staleness window governs `is_connected`, not
`get_price`: whenever the feed is not running, never received a sample, or
the most recent sample is at least 10 s old, `is_connected` returns false,
while `get_price` always returns the stored sample unchanged. -/
theorem C2_staleness_governs_is_connected_not_get_price :
    (∀ (now : ℚ) (s : FeedState),
        (s.running = false ∨ s.last_update = 0 ∨ 10 ≤ now - s.last_update) →
        is_connected now s = false) ∧
    (∀ s : FeedState, get_price s = s.price) := by
  constructor
  · intro now s h
    unfold is_connected
    rcases h with h | h | h
    · simp [h]
    · simp [h]
    · have hnot : ¬ (s.last_update ≠ 0 ∧ now - s.last_update < 10) := by
        rintro ⟨-, h2⟩; linarith
      simp [hnot]
  · intro s; rfl

/-- C2 witness: the amended statement evaluated at a concrete stale state. -/
theorem C2_witness :
    is_connected 200 ⟨some 50000, 100, true⟩ = false ∧
    get_price ⟨some 50000, 100, true⟩ = some 50000 :=
  ⟨C2_staleness_governs_is_connected_not_get_price.1 200 ⟨some 50000, 100, true⟩
      (Or.inr (Or.inr (by norm_num))),
   C2_staleness_governs_is_connected_not_get_price.2 ⟨some 50000, 100, true⟩⟩

/-- C3: the Quote Gate permits quoting iff the distance of the fair price
from 0.50 is at least `min_edge_bps/10000/2`, and vetoes iff the distance is
strictly below that bound, so a distance exactly equal to half the minimum
edge is allowed. -/
theorem C3_gate_strict_boundary (fair_price min_edge_bps : ℚ) :
    (allow fair_price min_edge_bps = true ↔
      min_edge_bps / 10000 / 2 ≤ |fair_price - 50/100|) ∧
    (allow fair_price min_edge_bps = false ↔
      |fair_price - 50/100| < min_edge_bps / 10000 / 2) := by
  unfold allow
  constructor
  · simp [not_lt]
  · simp [not_lt]

/-- C4 counterexample: the claimed bracket values are swapped — at fair price
0.489 the distance from 0.50 is 0.011 ≥ 0.01, so the gate allows (the claim
says it vetoes), and at 0.491 the distance is 0.009 < 0.01, so the gate
vetoes (the claim says it allows). -/
theorem C4_counterexample_bracket_swapped :
    ¬ (allow (50/100) 200 = false ∧ allow (60/100) 200 = true ∧
       allow (489/1000) 200 = false ∧ allow (491/1000) 200 = true) := by
  intro h
  have h3 := h.2.2.1
  rw [show allow (489/1000) 200 = true by norm_num [allow, abs, max_def]] at h3
  exact absurd h3 (by simp)

/-- C4 (amended): with `min_edge_bps = 200` the gate evaluates
`allow(0.50) = false`, `allow(0.60) = true`, `allow(0.489) = true` and
`allow(0.491) = false`: 0.489 (distance 0.011) and 0.491 (distance 0.009)
bracket the boundary at distance = min_edge/2 = 0.01 from opposite sides of
what the claim states. -/
theorem C4_gate_values_at_200bps :
    allow (50/100) 200 = false ∧ allow (60/100) 200 = true ∧
    allow (489/1000) 200 = true ∧ allow (491/1000) 200 = false := by
  refine ⟨?_, ?_, ?_, ?_⟩ <;> norm_num [allow, abs, max_def]

/-- C5: with a previous quote at 50000 and threshold 0.001, while the
time-based interval has not elapsed, a new price of 50050 (relative change
exactly 0.001) triggers a requote and 50049 does not: the comparison is a
strict `≥` against the threshold. -/
theorem C5_requote_price_change_boundary (now interval : ℚ)
    (orders : List String) (lcr : ℚ) (h : now - lcr < interval) :
    should_requote interval (1/1000) now ⟨orders, some 50000, lcr⟩ 50050 = true ∧
    should_requote interval (1/1000) now ⟨orders, some 50000, lcr⟩ 50049 = false := by
  constructor <;>
  · simp only [should_requote]
    rw [if_neg (not_le.mpr h)]
    norm_num [abs, max_def]

/-- C5 witness: the boundary pair evaluated with a concrete non-elapsed
interval. -/
theorem C5_witness :
    (0:ℚ) - 0 < 2 ∧
    should_requote 2 (1/1000) 0 ⟨[], some 50000, 0⟩ 50050 = true ∧
    should_requote 2 (1/1000) 0 ⟨[], some 50000, 0⟩ 50049 = false :=
  ⟨by norm_num, (C5_requote_price_change_boundary 0 2 [] 0 (by norm_num)).1,
   (C5_requote_price_change_boundary 0 2 [] 0 (by norm_num)).2⟩

set_option maxHeartbeats 3200000 in
/-- C6: `calculate_fair_price` is a total deterministic function whose
result always lies in [0.01, 0.99] (the defensive clamp), and for a fixed
strike it is monotonically non-decreasing in the reference price. -/
theorem C6_fair_price_range_and_monotone (btc1 btc2 strike : ℚ) :
    (1/100 ≤ calculate_fair_price btc1 strike ∧
      calculate_fair_price btc1 strike ≤ 99/100) ∧
    (btc1 ≤ btc2 →
      calculate_fair_price btc1 strike ≤ calculate_fair_price btc2 strike) := by
  refine ⟨⟨le_max_left _ _, max_le (by norm_num) (min_le_left _ _)⟩, ?_⟩
  intro h
  simp only [calculate_fair_price]
  refine max_le_max le_rfl (min_le_min le_rfl ?_)
  rcases abs_cases (btc1 - strike) with ⟨e1, s1⟩ | ⟨e1, s1⟩ <;>
    rcases abs_cases (btc2 - strike) with ⟨e2, s2⟩ | ⟨e2, s2⟩ <;>
      rw [e1, e2] <;> split_ifs <;> linarith

/-- C6 witness: range and monotonicity evaluated at concrete inputs. -/
theorem C6_witness :
    (1/100 ≤ calculate_fair_price 83050 83000 ∧
      calculate_fair_price 83050 83000 ≤ 99/100) ∧
    ((83050:ℚ) ≤ 83400 ∧
      calculate_fair_price 83050 83000 ≤ calculate_fair_price 83400 83000) :=
  ⟨(C6_fair_price_range_and_monotone 83050 83400 83000).1,
   by norm_num,
   (C6_fair_price_range_and_monotone 83050 83400 83000).2 (by norm_num)⟩

/-- C7: on a requote cycle where the gate vetoes, `quote_orders` cancels
every tracked order (and nothing else), clears the tracked set, submits no
new orders, and leaves `last_btc_price` and `last_cancel_replace`
unchanged. -/
theorem C7_veto_flattens_and_records_nothing (meb sb ps now p k : ℚ)
    (q : String) (buyId sellId : Option String) (s : StratState)
    (hp : p ≠ 0) (hq : extract_strike_price q = Except.ok (some k))
    (hk : k ≠ 0) (hveto : allow (calculate_fair_price p k) meb = false) :
    quote_orders meb sb ps now (some p) q buyId sellId s =
      Except.ok ({ s with current_orders := [] },
        s.current_orders.map Effect.cancelOrder) ∧
    ({ s with current_orders := ([] : List String) }).last_btc_price =
      s.last_btc_price ∧
    ({ s with current_orders := ([] : List String) }).last_cancel_replace =
      s.last_cancel_replace := by
  refine ⟨?_, rfl, rfl⟩
  unfold quote_orders
  rw [hq]
  simp [hp, hk, hveto]

/-- C7 witness: a vetoed cycle (fair price exactly 0.50) at a concrete
state: both tracked orders are cancelled, none created, the last-quote
fields survive. -/
theorem C7_witness :
    quote_orders 200 50 20 99 (some 50000) "$50,000" (some "b") (some "sl")
        ⟨["o1", "o2"], some 49000, 7⟩ =
      Except.ok (⟨[], some 49000, 7⟩,
        [Effect.cancelOrder "o1", Effect.cancelOrder "o2"]) :=
  (C7_veto_flattens_and_records_nothing 200 50 20 99 50000 50000 "$50,000"
      (some "b") (some "sl") ⟨["o1", "o2"], some 49000, 7⟩
      (by norm_num) rfl (by norm_num)
      (by norm_num [allow, calculate_fair_price, abs, max_def])).1

/-- C8: two successive `quote_orders` calls with unchanged inputs leave
exactly one buy and one sell order tracked: the second call first cancels
the first call's two orders and only then creates the new pair, so the
final tracked set is exactly the second pair. -/
theorem C8_cancel_replace_idempotent (meb sb ps now p k : ℚ) (q : String)
    (b1 sl1 b2 sl2 : String) (s0 : StratState)
    (hp : p ≠ 0) (hq : extract_strike_price q = Except.ok (some k))
    (hk : k ≠ 0) (hallow : allow (calculate_fair_price p k) meb = true) :
    (quote_orders meb sb ps now (some p) q (some b1) (some sl1) s0).bind
      (fun r => quote_orders meb sb ps now (some p) q (some b2) (some sl2) r.1) =
    Except.ok
      ({ current_orders := [b2, sl2], last_btc_price := some p,
         last_cancel_replace := now },
       [Effect.cancelOrder b1, Effect.cancelOrder sl1,
        Effect.createOrder "BUY"
          (max (1/100) (min (99/100)
            (calculate_fair_price p k - sb / 10000 / 2))) ps (some b2),
        Effect.createOrder "SELL"
          (max (1/100) (min (99/100)
            (calculate_fair_price p k + sb / 10000 / 2))) ps (some sl2)]) := by
  unfold quote_orders
  rw [hq]
  simp [hp, hk, hallow, Except.bind]

/-- C8 witness: two back-to-back cycles at fair price 0.90 leave exactly the
second call's buy/sell pair tracked, with the first pair cancelled. -/
theorem C8_witness :
    (quote_orders 200 50 20 99 (some 50600) "$50,000" (some "b1") (some "s1")
        ⟨[], none, 0⟩).bind
      (fun r => quote_orders 200 50 20 99 (some 50600) "$50,000" (some "b2")
        (some "s2") r.1) =
    Except.ok
      ({ current_orders := ["b2", "s2"], last_btc_price := some 50600,
         last_cancel_replace := 99 },
       [Effect.cancelOrder "b1", Effect.cancelOrder "s1",
        Effect.createOrder "BUY"
          (max (1/100) (min (99/100)
            (calculate_fair_price 50600 50000 - 50 / 10000 / 2))) 20 (some "b2"),
        Effect.createOrder "SELL"
          (max (1/100) (min (99/100)
            (calculate_fair_price 50600 50000 + 50 / 10000 / 2))) 20 (some "s2")]) :=
  C8_cancel_replace_idempotent 200 50 20 99 50600 50000 "$50,000"
    "b1" "s1" "b2" "s2" ⟨[], none, 0⟩
    (by norm_num) rfl (by norm_num)
    (by norm_num [allow, calculate_fair_price, abs, max_def])

/-- C9 counterexample: `find_active_market` never parses the strike, so for
a market whose question contains no currency-amount token, selection still
succeeds (the market is selected), refuting the claim that selection itself
fails with a missing strike. -/
theorem C9_counterexample_selection_ignores_strike :
    ¬ (∀ (m : Market) (rest : List Market) (s : SelState),
        extract_strike_price m.question = Except.ok none →
        (find_active_market (m :: rest) s).active_market = none) := by
  intro h
  have h2 := h ⟨"no strike here", [some "tok"]⟩ [] ⟨none, none⟩ rfl
  simp [find_active_market] at h2

/-- C9 (amended): selection picks the first market without parsing the
strike, succeeding even when the question has no currency-amount token; the
missing strike is discovered only later, in `quote_orders`, which skips the
cycle (no exchange calls, state unchanged) instead of failing at
selection. -/
theorem C9_missing_strike_discovered_at_quote_time (m : Market)
    (rest : List Market) (sel : SelState) (meb sb ps now p : ℚ)
    (buyId sellId : Option String) (s : StratState)
    (hp : p ≠ 0) (hq : extract_strike_price m.question = Except.ok none) :
    (find_active_market (m :: rest) sel).active_market = some m ∧
    quote_orders meb sb ps now (some p) m.question buyId sellId s =
      Except.ok (s, []) := by
  constructor
  · cases hm : m.tokens <;> simp [find_active_market, hm]
  · unfold quote_orders
    rw [hq]
    simp [hp]

/-- C9 witness: the amended statement at a concrete strike-less market. -/
theorem C9_witness :
    (find_active_market [⟨"no strike here", [some "tok"]⟩]
        ⟨none, none⟩).active_market = some ⟨"no strike here", [some "tok"]⟩ ∧
    quote_orders 200 50 20 99 (some 50000) "no strike here" (some "b")
        (some "sl") ⟨["o1"], some 49000, 7⟩ =
      Except.ok (⟨["o1"], some 49000, 7⟩, []) :=
  C9_missing_strike_discovered_at_quote_time ⟨"no strike here", [some "tok"]⟩
    [] ⟨none, none⟩ 200 50 20 99 50000 (some "b") (some "sl")
    ⟨["o1"], some 49000, 7⟩ (by norm_num) rfl

/-- C10: `extract_strike_price` is not total as documented: on a question
where `$` is followed only by commas (e.g. "above $, today") the regex group
is all commas, the comma-stripped string is empty, and `float('')` raises
`ValueError`; on ordinary inputs it returns the strike or `None`. -/
theorem C10_extract_strike_raises_value_error :
    extract_strike_price "above $, today" = Except.error PyError.valueError ∧
    strikeMatchGroup "above $, today".data = some [','] ∧
    extract_strike_price "Will BTC be above $83,000 at 3:15 PM?" =
      Except.ok (some 83000) ∧
    extract_strike_price "no strike here" = Except.ok none :=
  ⟨rfl, rfl, rfl, rfl⟩

end MakerBot
